import Mathlib

/-!
Shallow embedding of `src/src/utils.ts` from mithraiclabs/spl-governance:
a thin client helper library that builds unsigned Solana transactions
(create proposal, insert transaction, sign-off) for the SPL Governance
program, computing program-derived addresses from fixed seeds and keys.
-/

namespace SplGov

/-- A byte buffer (Node `Buffer`), modelled as a list of byte values. -/
abbrev Buffer := List Nat

/-- Embedding of `Buffer.from(s)` for an ASCII string: the byte sequence of its characters. -/
def bufferFromString (s : String) : Buffer := s.data.map Char.toNat

mutual

/-- A Solana public key. `raw` is an externally supplied key (identified by its
base58 text); `derived` is the result of the platform primitive
`web3.PublicKey.findProgramAddressSync(seeds, programId)`, which is a
deterministic pure function of the seed list and the owning program id.  We
represent that primitive symbolically by a free constructor recording exactly
its inputs; the source never inspects the address bytes, only compares and
re-serialises addresses. -/
inductive Key where
  | raw : String → Key
  | derived : List Seed → Key → Key

/-- One seed of an address derivation: either a literal byte buffer
(`Buffer.from(...)` of a string, or a little-endian numeric encoding) or the
32-byte serialisation (`key.toBuffer()`) of a public key. -/
inductive Seed where
  | bytes : Buffer → Seed
  | key : Key → Seed

end

/-- Embedding of `web3.PublicKey.findProgramAddressSync(seeds, programId)`, first component
of the returned pair (the source only destructures the address, never the
bump): modelled symbolically, see `Key.derived`. -/
def findProgramAddressSync (seeds : List Seed) (programId : Key) : Key :=
  Key.derived seeds programId

/-- Modelled from the spec: the constant `GOVERNANCE_PROGRAM_ID` is imported
from `src/constants.ts`, which is not under `src/`; the spec calls it "a
well-known constant" identifying the external governance program.  We model it
as a distinguished raw key. -/
def GOVERNANCE_PROGRAM_ID : Key := Key.raw "GovER5Lthms3bLBqWub97yVrMmEogzX7xNjdXpPPCVZw"

/-- Modelled from the spec: the constant `GOVERNANCE_PROGRAM_SEED` is imported
from `src/constants.ts`, which is not under `src/`; the spec describes it as
"a single governance-domain seed string reused across proposal, owner-record,
and proposal-transaction derivations", distinct from the literal
"realm-config" seed.  Its conventional value in the governance program is the
string "governance". -/
def GOVERNANCE_PROGRAM_SEED : String := "governance"

/-- Platform constant `web3.SystemProgram.programId`. -/
def systemProgramId : Key := Key.raw "11111111111111111111111111111111"

/-- Platform constant `web3.SYSVAR_RENT_PUBKEY`. -/
def sysvarRentPubkey : Key := Key.raw "SysvarRent111111111111111111111111111111111"

/-- Number of bytes bn.js needs to represent `n`:
`byteLength() = ceil(bitLength() / 8)`, with `byteLength 0 = 0`. -/
def bnByteLength (n : Nat) : Nat :=
  if n = 0 then 0 else Nat.log2 n / 8 + 1

/-- Embedding of `new BN(n).toArrayLike(Buffer, "le", len)`: the little-endian encoding of
`n` zero-padded to exactly `len` bytes.  bn.js asserts
`byteLength <= reqLength` ("byte array longer than desired length") and throws
when `n` does not fit, which we model as `none`. -/
def toArrayLikeLE (n len : Nat) : Option Buffer :=
  if bnByteLength n ≤ len then
    some ((List.range len).map fun i => n / 2 ^ (8 * i) % 2 ^ 8)
  else
    none

/-- The wallet-like signer interface from `utils.ts`; the library only ever
reads its public key (the signing capabilities are never invoked locally, so
they do not appear in the model). -/
structure AnchorWallet where
  publicKey : Key

/-- A network connection handle; opaque to this library (only threaded through
to the provider). -/
structure Connection where
  endpoint : String

/-- The options record passed to the `AnchorProvider` constructor. -/
structure ProviderOpts where
  commitment : String
  preflightCommitment : String
  skipPreflight : Bool

/-- Embedding of `new AnchorProvider(connection, wallet, opts)`. -/
structure AnchorProvider where
  connection : Connection
  wallet : AnchorWallet
  opts : ProviderOpts

/-- Anchor's `provider.publicKey`, which delegates to the wallet's public key. -/
def AnchorProvider.publicKey (p : AnchorProvider) : Key := p.wallet.publicKey

/-- The Anchor `Program` handle: its bound on-chain program id and its
provider (the IDL and coder arguments carry no data the builders read). -/
structure Program where
  programId : Key
  provider : AnchorProvider

/-- Embedding of `createSplGovernanceProgram(wallet, connection, programId?)`: constructs a
provider with confirmed commitment, confirmed preflight commitment and
preflight enabled, and binds the program handle to the given program id, or to
`GOVERNANCE_PROGRAM_ID` when the optional argument is omitted (`none`). -/
def createSplGovernanceProgram (wallet : AnchorWallet) (connection : Connection)
    (programId : Option Key) : Program :=
  let provider : AnchorProvider :=
    { connection := connection
      wallet := wallet
      opts :=
        { commitment := "confirmed"
          preflightCommitment := "confirmed"
          skipPreflight := false } }
  { programId := programId.getD GOVERNANCE_PROGRAM_ID
    provider := provider }

/-- One entry of `web3.TransactionInstruction.keys`: account metadata. -/
structure AccountMeta where
  pubkey : Key
  isSigner : Bool
  isWritable : Bool

/-- A caller-supplied `web3.TransactionInstruction`. -/
structure TransactionInstruction where
  programId : Key
  keys : List AccountMeta
  data : Buffer

/-- The neutral instruction record produced by
`getInstructionDataFromInstruction`. -/
structure InstructionData where
  programId : Key
  accounts : List AccountMeta
  data : Buffer

/-- Embedding of `getInstructionDataFromInstruction(instruction)`: repackages a transaction
instruction as a plain record of its program id, account metadata list and raw
data bytes. -/
def getInstructionDataFromInstruction (instruction : TransactionInstruction) :
    InstructionData :=
  { programId := instruction.programId
    accounts := instruction.keys
    data := instruction.data }

/-- The vote type argument; the source always passes `{ singleChoice: {} }`. -/
inductive VoteType where
  | singleChoice

/-- The accounts object passed to `.createProposal(...).accounts({...})`. -/
structure CreateProposalAccounts where
  realm : Key
  proposalAddress : Key
  governance : Key
  proposalOwnerRecord : Key
  governanceAuthority : Key
  payer : Key
  governingTokenMint : Key
  systemProgram : Key
  realmConfigAddress : Key
  proposalDepositAddress : Key

/-- The accounts object passed to `.insertTransaction(...).accounts({...})`. -/
structure InsertTransactionAccounts where
  governance : Key
  proposal : Key
  tokenOwnerRecord : Key
  governanceAuthority : Key
  proposalTransactionAddress : Key
  payer : Key
  systemProgram : Key
  rent : Key

/-- The accounts object passed to `.signOffProposal().accounts({...})`. -/
structure SignOffProposalAccounts where
  realm : Key
  governance : Key
  proposal : Key
  signatory : Key
  proposalOwnerRecord : Key

/-- A governance-program instruction as assembled by the Anchor methods
builder: the operation name, its arguments in order, and its accounts. -/
inductive GovInstruction where
  | createProposal (name description : String) (voteType : VoteType)
      (options : List String) (useDenyOption : Bool) (proposalSeed : Key)
      (accounts : CreateProposalAccounts)
  | insertTransaction (optionIndex txIndex holdupTime : Nat)
      (instructionData : List InstructionData)
      (accounts : InsertTransactionAccounts)
  | signOffProposal (accounts : SignOffProposalAccounts)

/-- An unsigned `web3.Transaction`: an ordered list of instructions (each
builder in this library produces a transaction holding exactly one). -/
structure Transaction where
  instructions : List GovInstruction

/-- The record returned by `createProposalTx`. -/
structure CreateProposalResult where
  tx : Transaction
  proposalAddress : Key
  proposalOwnerRecordKey : Key

/-- The realm config record; the source reads `realm.config.councilMint`. -/
structure RealmConfig where
  councilMint : Key

/-- The fetched `realmV2` account: the source reads its community mint and its
config's council mint. -/
structure Realm where
  communityMint : Key
  config : RealmConfig

/-- Embedding of `createProposalTx(governanceProgram, realmKey, governanceKey,
proposalName, councilVote = false)`.  The two environment effects are passed
explicitly: `realmFetch` is the result of the awaited
`governanceProgram.account.realmV2.fetch(realmKey)` network read (`none` when
the fetch fails or the account is empty), and `proposalSeed` is the fresh
random `new web3.Keypair().publicKey`.  The omitted default of `councilVote`
is `councilVote = none`. -/
def createProposalTx (governanceProgram : Program) (realmKey governanceKey : Key)
    (proposalName : String) (councilVote : Option Bool)
    (realmFetch : Option Realm) (proposalSeed : Key) :
    Except String CreateProposalResult := do
  let realm ← match realmFetch with
    | none => Except.error "Could not fetch Realm V2 account"
    | some r => Except.ok r
  let governingTokenMint :=
    if councilVote.getD false then realm.config.councilMint else realm.communityMint
  let proposalAddress := findProgramAddressSync
    [Seed.bytes (bufferFromString GOVERNANCE_PROGRAM_SEED),
     Seed.key governanceKey,
     Seed.key governingTokenMint,
     Seed.key proposalSeed]
    GOVERNANCE_PROGRAM_ID
  let proposalOwnerRecordKey := findProgramAddressSync
    [Seed.bytes (bufferFromString GOVERNANCE_PROGRAM_SEED),
     Seed.key realmKey,
     Seed.key governingTokenMint,
     Seed.key governanceProgram.provider.publicKey]
    GOVERNANCE_PROGRAM_ID
  let realmConfigAddress := findProgramAddressSync
    [Seed.bytes (bufferFromString "realm-config"), Seed.key realmKey]
    GOVERNANCE_PROGRAM_ID
  let proposalDepositAddress := findProgramAddressSync
    [Seed.key proposalAddress, Seed.key governanceProgram.provider.publicKey]
    GOVERNANCE_PROGRAM_ID
  let tx : Transaction :=
    { instructions :=
        [GovInstruction.createProposal proposalName "" VoteType.singleChoice
          ["Approve"] true proposalSeed
          { realm := realmKey
            proposalAddress := proposalAddress
            governance := governanceKey
            proposalOwnerRecord := proposalOwnerRecordKey
            governanceAuthority := governanceProgram.provider.publicKey
            payer := governanceProgram.provider.publicKey
            governingTokenMint := governingTokenMint
            systemProgram := systemProgramId
            realmConfigAddress := realmConfigAddress
            proposalDepositAddress := proposalDepositAddress }] }
  return { tx := tx
           proposalAddress := proposalAddress
           proposalOwnerRecordKey := proposalOwnerRecordKey }

/-- Embedding of `insertTransactionTx(governanceProgram, governanceKey, proposalAddress,
proposalOwnerRecordKey, txIndex, instructions)`.  The bn.js encoding
`new BN(x).toArrayLike(Buffer, "le", len)` throws when `x` needs more than
`len` bytes, modelled as the error branch. -/
def insertTransactionTx (governanceProgram : Program)
    (governanceKey proposalAddress proposalOwnerRecordKey : Key)
    (txIndex : Nat) (instructions : List TransactionInstruction) :
    Except String Transaction := do
  let optionIndex := 0
  let holdupTime := 0
  let ixDataVec := instructions.map getInstructionDataFromInstruction
  let optionIndexBytes ← match toArrayLikeLE optionIndex 1 with
    | none => Except.error "byte array longer than desired length"
    | some b => Except.ok b
  let txIndexBytes ← match toArrayLikeLE txIndex 2 with
    | none => Except.error "byte array longer than desired length"
    | some b => Except.ok b
  let proposalTransactionAddress := findProgramAddressSync
    [Seed.bytes (bufferFromString GOVERNANCE_PROGRAM_SEED),
     Seed.key proposalAddress,
     Seed.bytes optionIndexBytes,
     Seed.bytes txIndexBytes]
    GOVERNANCE_PROGRAM_ID
  return { instructions :=
      [GovInstruction.insertTransaction optionIndex txIndex holdupTime ixDataVec
        { governance := governanceKey
          proposal := proposalAddress
          tokenOwnerRecord := proposalOwnerRecordKey
          governanceAuthority := governanceProgram.provider.publicKey
          proposalTransactionAddress := proposalTransactionAddress
          payer := governanceProgram.provider.publicKey
          systemProgram := systemProgramId
          rent := sysvarRentPubkey }] }

/-- Embedding of `createProposalSignOffTx(governanceProgram, realmKey, governanceKey,
proposalOwnerRecordKey, proposalAddress)`: builds the sign-off transaction; no
address derivation and no failure path. -/
def createProposalSignOffTx (governanceProgram : Program)
    (realmKey governanceKey proposalOwnerRecordKey proposalAddress : Key) :
    Transaction :=
  { instructions :=
      [GovInstruction.signOffProposal
        { realm := realmKey
          governance := governanceKey
          proposal := proposalAddress
          signatory := governanceProgram.provider.publicKey
          proposalOwnerRecord := proposalOwnerRecordKey }] }

/-- Embedding of `createProposalWithInstructionsTransactions(governanceProgram, realmKey,
governanceKey, proposalName, instructions, councilVote = false)`: the
composite builder, which re-derives every address inline (the source
duplicates the derivations rather than calling the individual builders) and
resolves the three assembled transactions as an ordered list
[create, insert, sign-off].  As in `createProposalTx`, `realmFetch` and
`proposalSeed` stand for the awaited realm fetch and the fresh random
keypair. -/
def createProposalWithInstructionsTransactions (governanceProgram : Program)
    (realmKey governanceKey : Key) (proposalName : String)
    (instructions : List TransactionInstruction) (councilVote : Option Bool)
    (realmFetch : Option Realm) (proposalSeed : Key) :
    Except String (List Transaction) := do
  let realm ← match realmFetch with
    | none => Except.error "Could not fetch Realm V2 account"
    | some r => Except.ok r
  let governingTokenMint :=
    if councilVote.getD false then realm.config.councilMint else realm.communityMint
  let proposalAddress := findProgramAddressSync
    [Seed.bytes (bufferFromString GOVERNANCE_PROGRAM_SEED),
     Seed.key governanceKey,
     Seed.key governingTokenMint,
     Seed.key proposalSeed]
    GOVERNANCE_PROGRAM_ID
  let proposalOwnerRecordKey := findProgramAddressSync
    [Seed.bytes (bufferFromString GOVERNANCE_PROGRAM_SEED),
     Seed.key realmKey,
     Seed.key governingTokenMint,
     Seed.key governanceProgram.provider.publicKey]
    GOVERNANCE_PROGRAM_ID
  let realmConfigAddress := findProgramAddressSync
    [Seed.bytes (bufferFromString "realm-config"), Seed.key realmKey]
    GOVERNANCE_PROGRAM_ID
  let proposalDepositAddress := findProgramAddressSync
    [Seed.key proposalAddress, Seed.key governanceProgram.provider.publicKey]
    GOVERNANCE_PROGRAM_ID
  let optionIndex := 0
  let holdupTime := 0
  let txIndex := 0
  let ixDataVec := instructions.map getInstructionDataFromInstruction
  let optionIndexBytes ← match toArrayLikeLE optionIndex 1 with
    | none => Except.error "byte array longer than desired length"
    | some b => Except.ok b
  let txIndexBytes ← match toArrayLikeLE txIndex 2 with
    | none => Except.error "byte array longer than desired length"
    | some b => Except.ok b
  let proposalTransactionAddress := findProgramAddressSync
    [Seed.bytes (bufferFromString GOVERNANCE_PROGRAM_SEED),
     Seed.key proposalAddress,
     Seed.bytes optionIndexBytes,
     Seed.bytes txIndexBytes]
    GOVERNANCE_PROGRAM_ID
  pure
    [{ instructions :=
        [GovInstruction.createProposal proposalName "" VoteType.singleChoice
          ["Approve"] true proposalSeed
          { realm := realmKey
            proposalAddress := proposalAddress
            governance := governanceKey
            proposalOwnerRecord := proposalOwnerRecordKey
            governanceAuthority := governanceProgram.provider.publicKey
            payer := governanceProgram.provider.publicKey
            governingTokenMint := governingTokenMint
            systemProgram := systemProgramId
            realmConfigAddress := realmConfigAddress
            proposalDepositAddress := proposalDepositAddress }] },
     { instructions :=
        [GovInstruction.insertTransaction optionIndex txIndex holdupTime ixDataVec
          { governance := governanceKey
            proposal := proposalAddress
            tokenOwnerRecord := proposalOwnerRecordKey
            governanceAuthority := governanceProgram.provider.publicKey
            proposalTransactionAddress := proposalTransactionAddress
            payer := governanceProgram.provider.publicKey
            systemProgram := systemProgramId
            rent := sysvarRentPubkey }] },
     { instructions :=
        [GovInstruction.signOffProposal
          { realm := realmKey
            governance := governanceKey
            proposal := proposalAddress
            signatory := governanceProgram.provider.publicKey
            proposalOwnerRecord := proposalOwnerRecordKey }] }]

/-- Observation: the accounts of a transaction holding exactly the
create-proposal instruction. -/
def Transaction.createAccounts (t : Transaction) : Option CreateProposalAccounts :=
  match t.instructions with
  | [GovInstruction.createProposal _ _ _ _ _ _ a] => some a
  | _ => none

/-- Observation: the accounts of a transaction holding exactly the
insert-transaction instruction. -/
def Transaction.insertAccounts (t : Transaction) : Option InsertTransactionAccounts :=
  match t.instructions with
  | [GovInstruction.insertTransaction _ _ _ _ a] => some a
  | _ => none

/-- Observation: the accounts of a transaction holding exactly the
sign-off-proposal instruction. -/
def Transaction.signOffAccounts (t : Transaction) : Option SignOffProposalAccounts :=
  match t.instructions with
  | [GovInstruction.signOffProposal a] => some a
  | _ => none

/-- Observation: the hold-up-time argument of a transaction holding exactly
the insert-transaction instruction. -/
def Transaction.insertHoldupTime (t : Transaction) : Option Nat :=
  match t.instructions with
  | [GovInstruction.insertTransaction _ _ h _ _] => some h
  | _ => none

/-- Observation: the instruction-data-vector argument of a transaction holding
exactly the insert-transaction instruction. -/
def Transaction.insertInstructionData (t : Transaction) : Option (List InstructionData) :=
  match t.instructions with
  | [GovInstruction.insertTransaction _ _ _ v _] => some v
  | _ => none

/-- Observation: the owning program recorded in a derived address (`none` for
a raw, non-derived key). -/
def Key.ownerProgram : Key → Option Key
  | Key.raw _ => none
  | Key.derived _ pid => some pid

/-- The bn.js byte length of `n` is at most `k` exactly when `n < 2 ^ (8 * k)`. -/
lemma bnByteLength_le_iff (n k : Nat) : bnByteLength n ≤ k ↔ n < 2 ^ (8 * k) := by
  unfold bnByteLength
  by_cases h0 : n = 0
  · subst h0
    simp
  · rw [if_neg h0]
    have hlog : Nat.log2 n < 8 * k ↔ n < 2 ^ (8 * k) := Nat.log2_lt h0
    constructor
    · intro h
      exact hlog.mp (by omega)
    · intro h
      have := hlog.mpr h
      omega

/-- Successful 2-byte little-endian encoding of a value below `2 ^ 16`. -/
lemma toArrayLikeLE_two (n : Nat) (h : n < 65536) :
    toArrayLikeLE n 2 = some [n % 256, n / 256 % 256] := by
  have hle : bnByteLength n ≤ 2 := (bnByteLength_le_iff n 2).mpr (by norm_num; omega)
  unfold toArrayLikeLE
  rw [if_pos hle]
  norm_num [List.range_succ]

/-- The 2-byte little-endian encoding is injective below `2 ^ 16`. -/
lemma le2_encoding_inj (a b : Nat) (ha : a < 65536) (hb : b < 65536)
    (h1 : a % 256 = b % 256) (h2 : a / 256 % 256 = b / 256 % 256) : a = b := by
  omega

/-- Failing 2-byte little-endian encoding of a value at or above `2 ^ 16`. -/
lemma toArrayLikeLE_two_none (n : Nat) (h : 65536 ≤ n) : toArrayLikeLE n 2 = none := by
  unfold toArrayLikeLE
  rw [if_neg]
  intro hle
  have hlt := (bnByteLength_le_iff n 2).mp hle
  norm_num at hlt
  omega

/-- Closed form of `insertTransactionTx` when the transaction index fits in
two bytes. -/
lemma insertTransactionTx_eq (p : Program) (gk pa orc : Key) (txIndex : Nat)
    (ixs : List TransactionInstruction) (h : txIndex < 65536) :
    insertTransactionTx p gk pa orc txIndex ixs =
      Except.ok
        { instructions :=
            [GovInstruction.insertTransaction 0 txIndex 0
              (ixs.map getInstructionDataFromInstruction)
              { governance := gk
                proposal := pa
                tokenOwnerRecord := orc
                governanceAuthority := p.provider.publicKey
                proposalTransactionAddress :=
                  Key.derived
                    [Seed.bytes (bufferFromString GOVERNANCE_PROGRAM_SEED),
                     Seed.key pa,
                     Seed.bytes [0],
                     Seed.bytes [txIndex % 256, txIndex / 256 % 256]]
                    GOVERNANCE_PROGRAM_ID
                payer := p.provider.publicKey
                systemProgram := systemProgramId
                rent := sysvarRentPubkey }] } := by
  unfold insertTransactionTx
  rw [toArrayLikeLE_two txIndex h]
  rfl

/-- Closed form of `insertTransactionTx` when the transaction index does not
fit in two bytes: the bn.js encoding throws. -/
lemma insertTransactionTx_eq_overflow (p : Program) (gk pa orc : Key) (txIndex : Nat)
    (ixs : List TransactionInstruction) (h : 65536 ≤ txIndex) :
    insertTransactionTx p gk pa orc txIndex ixs =
      Except.error "byte array longer than desired length" := by
  unfold insertTransactionTx
  rw [toArrayLikeLE_two_none txIndex h]
  rfl

/-- A sample program handle used to instantiate theorems at concrete inputs. -/
def sampleProgram : Program :=
  createSplGovernanceProgram { publicKey := Key.raw "wallet" } { endpoint := "localnet" } none

/-- A sample realm record used to instantiate theorems at concrete inputs. -/
def sampleRealm : Realm :=
  { communityMint := Key.raw "community-mint"
    config := { councilMint := Key.raw "council-mint" } }

/-- A sample caller-supplied instruction used to instantiate theorems at
concrete inputs. -/
def sampleInstruction : TransactionInstruction :=
  { programId := Key.raw "token-program"
    keys := [{ pubkey := Key.raw "some-account", isSigner := true, isWritable := false }]
    data := [1, 2, 3] }

/-- C1: for every realm, governance key, proposal name and councilVote flag,
`createProposalTx` derives exactly four addresses with the exact seed
compositions and orderings: the proposal address from [fixed governance seed,
governance key, governing-token-mint key, proposal-seed key]; the
proposal-owner-record address from [fixed governance seed, realm key,
governing-token-mint key, caller public key]; the realm-config address from
["realm-config", realm key]; and the proposal-deposit address from [proposal
address, caller public key]. -/
theorem createProposalTx_seed_compositions
    (p : Program) (realm : Realm) (realmKey governanceKey proposalSeed : Key)
    (proposalName : String) (councilVote : Option Bool) :
    ∃ res,
      createProposalTx p realmKey governanceKey proposalName councilVote
          (some realm) proposalSeed = Except.ok res ∧
      res.proposalAddress =
        Key.derived
          [Seed.bytes (bufferFromString GOVERNANCE_PROGRAM_SEED),
           Seed.key governanceKey,
           Seed.key (if councilVote.getD false then realm.config.councilMint
                     else realm.communityMint),
           Seed.key proposalSeed] GOVERNANCE_PROGRAM_ID ∧
      res.proposalOwnerRecordKey =
        Key.derived
          [Seed.bytes (bufferFromString GOVERNANCE_PROGRAM_SEED),
           Seed.key realmKey,
           Seed.key (if councilVote.getD false then realm.config.councilMint
                     else realm.communityMint),
           Seed.key p.provider.publicKey] GOVERNANCE_PROGRAM_ID ∧
      (res.tx.createAccounts.map fun a => a.realmConfigAddress) =
        some (Key.derived
          [Seed.bytes (bufferFromString "realm-config"), Seed.key realmKey]
          GOVERNANCE_PROGRAM_ID) ∧
      (res.tx.createAccounts.map fun a => a.proposalDepositAddress) =
        some (Key.derived
          [Seed.key res.proposalAddress, Seed.key p.provider.publicKey]
          GOVERNANCE_PROGRAM_ID) := by
  exact ⟨_, rfl, rfl, rfl, rfl, rfl⟩

/-- C2: for every input and a fixed proposal seed, the composite builder
`createProposalWithInstructionsTransactions` equals the sequencing of the
three individual builders — it returns exactly the three unsigned transactions
[create, insert with txIndex 0, sign-off], built on the proposal address and
owner-record address that `createProposalTx` returns and that
`insertTransactionTx` and `createProposalSignOffTx` then receive. -/
theorem composite_refines_individual_builders
    (p : Program) (realmKey governanceKey : Key) (proposalName : String)
    (instructions : List TransactionInstruction) (councilVote : Option Bool)
    (realmFetch : Option Realm) (proposalSeed : Key) :
    (createProposalWithInstructionsTransactions p realmKey governanceKey
        proposalName instructions councilVote realmFetch proposalSeed =
      (do
        let res ← createProposalTx p realmKey governanceKey proposalName
          councilVote realmFetch proposalSeed
        let insertTx ← insertTransactionTx p governanceKey res.proposalAddress
          res.proposalOwnerRecordKey 0 instructions
        Except.ok [res.tx, insertTx,
          createProposalSignOffTx p realmKey governanceKey
            res.proposalOwnerRecordKey res.proposalAddress])) ∧
    (∀ realm : Realm, ∃ t1 t2 t3,
      createProposalWithInstructionsTransactions p realmKey governanceKey
        proposalName instructions councilVote (some realm) proposalSeed =
        Except.ok [t1, t2, t3]) := by
  constructor
  · cases realmFetch <;> rfl
  · intro realm
    exact ⟨_, _, _, rfl⟩

/-- C3: for every fetched realm, `createProposalTx` and
`createProposalWithInstructionsTransactions` select the realm config's council
mint as the governing token mint when councilVote is true, and the realm's
community mint when councilVote is false or omitted (the default). -/
theorem governingTokenMint_selection
    (p : Program) (realm : Realm) (realmKey governanceKey proposalSeed : Key)
    (proposalName : String) (instructions : List TransactionInstruction) :
    (∃ res, createProposalTx p realmKey governanceKey proposalName (some true)
        (some realm) proposalSeed = Except.ok res ∧
      (res.tx.createAccounts.map fun a => a.governingTokenMint) =
        some realm.config.councilMint) ∧
    (∃ res, createProposalTx p realmKey governanceKey proposalName (some false)
        (some realm) proposalSeed = Except.ok res ∧
      (res.tx.createAccounts.map fun a => a.governingTokenMint) =
        some realm.communityMint) ∧
    (∃ res, createProposalTx p realmKey governanceKey proposalName none
        (some realm) proposalSeed = Except.ok res ∧
      (res.tx.createAccounts.map fun a => a.governingTokenMint) =
        some realm.communityMint) ∧
    (∃ t1 t2 t3, createProposalWithInstructionsTransactions p realmKey
        governanceKey proposalName instructions (some true) (some realm)
        proposalSeed = Except.ok [t1, t2, t3] ∧
      (t1.createAccounts.map fun a => a.governingTokenMint) =
        some realm.config.councilMint) ∧
    (∃ t1 t2 t3, createProposalWithInstructionsTransactions p realmKey
        governanceKey proposalName instructions (some false) (some realm)
        proposalSeed = Except.ok [t1, t2, t3] ∧
      (t1.createAccounts.map fun a => a.governingTokenMint) =
        some realm.communityMint) ∧
    (∃ t1 t2 t3, createProposalWithInstructionsTransactions p realmKey
        governanceKey proposalName instructions none (some realm)
        proposalSeed = Except.ok [t1, t2, t3] ∧
      (t1.createAccounts.map fun a => a.governingTokenMint) =
        some realm.communityMint) := by
  exact ⟨⟨_, rfl, rfl⟩, ⟨_, rfl, rfl⟩, ⟨_, rfl, rfl⟩,
    ⟨_, _, _, rfl, rfl⟩, ⟨_, _, _, rfl, rfl⟩, ⟨_, _, _, rfl, rfl⟩⟩

/-- C5 counterexample: at a concrete input whose realm fetch returns empty,
`createProposalTx` fails with the message "Could not fetch Realm V2 account",
which is not the message "Realm not found" the claim states. -/
theorem realm_fetch_failure_message_counterexample :
    createProposalTx sampleProgram (Key.raw "realm") (Key.raw "governance")
        "my proposal" none none (Key.raw "proposal-seed") =
      Except.error "Could not fetch Realm V2 account" ∧
    "Could not fetch Realm V2 account" ≠ "Realm not found" := by
  exact ⟨rfl, by decide⟩

/-- C5 (amended): for every realm key whose account fetch fails or returns
empty, `createProposalTx` and `createProposalWithInstructionsTransactions`
fail immediately, signaling "Could not fetch Realm V2 account", before any
transaction is constructed, and return no partial transaction or transaction
list. -/
theorem realm_fetch_failure_fails_immediately
    (p : Program) (realmKey governanceKey proposalSeed : Key)
    (proposalName : String) (councilVote : Option Bool)
    (instructions : List TransactionInstruction) :
    createProposalTx p realmKey governanceKey proposalName councilVote none
        proposalSeed = Except.error "Could not fetch Realm V2 account" ∧
    createProposalWithInstructionsTransactions p realmKey governanceKey
        proposalName instructions councilVote none proposalSeed =
      Except.error "Could not fetch Realm V2 account" := by
  exact ⟨rfl, rfl⟩

/-- C8: for every successful call, `createProposalTx` invokes the
create-proposal operation with empty description, single-choice vote type,
exactly one option labeled "Approve" and the deny option enabled, and returns,
alongside the unsigned transaction, the computed proposal address and
owner-record address (the very addresses placed in the transaction's
accounts). -/
theorem createProposalTx_fixed_parameters
    (p : Program) (realm : Realm) (realmKey governanceKey proposalSeed : Key)
    (proposalName : String) (councilVote : Option Bool) :
    ∃ res accounts,
      createProposalTx p realmKey governanceKey proposalName councilVote
          (some realm) proposalSeed = Except.ok res ∧
      res.tx.instructions =
        [GovInstruction.createProposal proposalName "" VoteType.singleChoice
          ["Approve"] true proposalSeed accounts] ∧
      accounts.proposalAddress = res.proposalAddress ∧
      accounts.proposalOwnerRecord = res.proposalOwnerRecordKey := by
  exact ⟨_, _, rfl, rfl, rfl, rfl⟩

/-- C9: for every wallet and connection, `createSplGovernanceProgram` returns
a program handle whose provider uses "confirmed" commitment for execution and
for preflight simulation with preflight enabled (skipPreflight false), and
whose program id is the overriding argument when given and the constant
`GOVERNANCE_PROGRAM_ID` when the optional argument is omitted. -/
theorem createSplGovernanceProgram_config
    (wallet : AnchorWallet) (connection : Connection) (pid : Key) :
    (createSplGovernanceProgram wallet connection none).provider.opts =
      { commitment := "confirmed", preflightCommitment := "confirmed",
        skipPreflight := false } ∧
    (createSplGovernanceProgram wallet connection (some pid)).provider.opts =
      { commitment := "confirmed", preflightCommitment := "confirmed",
        skipPreflight := false } ∧
    (createSplGovernanceProgram wallet connection none).programId =
      GOVERNANCE_PROGRAM_ID ∧
    (createSplGovernanceProgram wallet connection (some pid)).programId = pid := by
  exact ⟨rfl, rfl, rfl, rfl⟩

/-- C4: for every proposal address and every 2-byte transaction index,
`insertTransactionTx` derives the nested proposal-transaction address from
[fixed governance seed, proposal address, option-index 0 as 1-byte
little-endian, txIndex as 2-byte little-endian], passes zero hold-up time, and
changing txIndex changes only that nested derivation, not the proposal or
owner-record addresses used in the transaction. -/
theorem insertTransactionTx_nested_derivation
    (p : Program) (governanceKey proposalAddress proposalOwnerRecordKey : Key)
    (txIndex txIndex2 : Nat) (ixs : List TransactionInstruction)
    (h : txIndex < 65536) (h2 : txIndex2 < 65536) (hne : txIndex ≠ txIndex2) :
    ∃ t t2,
      insertTransactionTx p governanceKey proposalAddress
        proposalOwnerRecordKey txIndex ixs = Except.ok t ∧
      insertTransactionTx p governanceKey proposalAddress
        proposalOwnerRecordKey txIndex2 ixs = Except.ok t2 ∧
      (t.insertAccounts.map fun a => a.proposalTransactionAddress) =
        some (Key.derived
          [Seed.bytes (bufferFromString GOVERNANCE_PROGRAM_SEED),
           Seed.key proposalAddress,
           Seed.bytes [0],
           Seed.bytes [txIndex % 256, txIndex / 256 % 256]]
          GOVERNANCE_PROGRAM_ID) ∧
      t.insertHoldupTime = some 0 ∧
      (t.insertAccounts.map fun a => a.proposalTransactionAddress) ≠
        (t2.insertAccounts.map fun a => a.proposalTransactionAddress) ∧
      (t.insertAccounts.map fun a => a.proposal) =
        (t2.insertAccounts.map fun a => a.proposal) ∧
      (t.insertAccounts.map fun a => a.tokenOwnerRecord) =
        (t2.insertAccounts.map fun a => a.tokenOwnerRecord) := by
  refine ⟨_, _,
    insertTransactionTx_eq p governanceKey proposalAddress
      proposalOwnerRecordKey txIndex ixs h,
    insertTransactionTx_eq p governanceKey proposalAddress
      proposalOwnerRecordKey txIndex2 ixs h2,
    rfl, rfl, ?_, rfl, rfl⟩
  intro hcontra
  simp only [Transaction.insertAccounts, Option.map_some', Option.some.injEq,
    Key.derived.injEq, List.cons.injEq, Seed.bytes.injEq, and_true,
    true_and] at hcontra
  exact hne (le2_encoding_inj txIndex txIndex2 h h2 hcontra.1 hcontra.2)

/-- C4 witness: the nested-derivation theorem instantiated at concrete inputs
with transaction indices 0 and 1. -/
theorem insertTransactionTx_nested_derivation_witness :
    (0 : Nat) < 65536 ∧ (1 : Nat) < 65536 ∧ (0 : Nat) ≠ 1 ∧
    (∃ t t2,
      insertTransactionTx sampleProgram (Key.raw "governance")
        (Key.raw "proposal") (Key.raw "owner-record") 0 [sampleInstruction] =
        Except.ok t ∧
      insertTransactionTx sampleProgram (Key.raw "governance")
        (Key.raw "proposal") (Key.raw "owner-record") 1 [sampleInstruction] =
        Except.ok t2 ∧
      (t.insertAccounts.map fun a => a.proposalTransactionAddress) =
        some (Key.derived
          [Seed.bytes (bufferFromString GOVERNANCE_PROGRAM_SEED),
           Seed.key (Key.raw "proposal"),
           Seed.bytes [0],
           Seed.bytes [0 % 256, 0 / 256 % 256]]
          GOVERNANCE_PROGRAM_ID) ∧
      t.insertHoldupTime = some 0 ∧
      (t.insertAccounts.map fun a => a.proposalTransactionAddress) ≠
        (t2.insertAccounts.map fun a => a.proposalTransactionAddress) ∧
      (t.insertAccounts.map fun a => a.proposal) =
        (t2.insertAccounts.map fun a => a.proposal) ∧
      (t.insertAccounts.map fun a => a.tokenOwnerRecord) =
        (t2.insertAccounts.map fun a => a.tokenOwnerRecord)) :=
  ⟨by decide, by decide, by decide,
    insertTransactionTx_nested_derivation sampleProgram (Key.raw "governance")
      (Key.raw "proposal") (Key.raw "owner-record") 0 1 [sampleInstruction]
      (by decide) (by decide) (by decide)⟩

/-- C6: for every list of caller-supplied instructions, the mapping used by
`insertTransactionTx` and `createProposalWithInstructionsTransactions`
produces an equal-length, order-preserving list whose i-th record copies the
i-th instruction's program id, account metadata list and raw data bytes
verbatim; both builders pass exactly that mapped list to the
insert-transaction instruction. -/
theorem instruction_records_copied_verbatim
    (p : Program) (realm : Realm)
    (realmKey governanceKey proposalAddress proposalOwnerRecordKey proposalSeed : Key)
    (proposalName : String) (councilVote : Option Bool)
    (ixs : List TransactionInstruction) :
    (ixs.map getInstructionDataFromInstruction).length = ixs.length ∧
    (∀ i : Nat,
      (ixs.map getInstructionDataFromInstruction)[i]? =
        (ixs[i]?).map fun ix =>
          { programId := ix.programId
            accounts := ix.keys
            data := ix.data }) ∧
    (∀ txIndex : Nat,
      insertTransactionTx p governanceKey proposalAddress
          proposalOwnerRecordKey txIndex ixs =
        Except.error "byte array longer than desired length" ∨
      ∃ t, insertTransactionTx p governanceKey proposalAddress
          proposalOwnerRecordKey txIndex ixs = Except.ok t ∧
        t.insertInstructionData =
          some (ixs.map getInstructionDataFromInstruction)) ∧
    (∃ t1 t2 t3, createProposalWithInstructionsTransactions p realmKey
        governanceKey proposalName ixs councilVote (some realm) proposalSeed =
      Except.ok [t1, t2, t3] ∧
      t2.insertInstructionData =
        some (ixs.map getInstructionDataFromInstruction)) := by
  refine ⟨List.length_map _ _, ?_, ?_, ⟨_, _, _, rfl, rfl⟩⟩
  · intro i
    rw [List.getElem?_map]
    cases ixs[i]? <;> rfl
  · intro txIndex
    by_cases h : txIndex < 65536
    · exact Or.inr ⟨_, insertTransactionTx_eq p governanceKey proposalAddress
        proposalOwnerRecordKey txIndex ixs h, rfl⟩
    · exact Or.inl (insertTransactionTx_eq_overflow p governanceKey
        proposalAddress proposalOwnerRecordKey txIndex ixs (by omega))

/-- C7 counterexample: at the concrete index 65536, whose value does not fit
in 2 bytes, `insertTransactionTx` fails locally with the bn.js assertion
message instead of leaving rejection to the external program. -/
theorem txIndex_overflow_fails_locally_counterexample :
    insertTransactionTx sampleProgram (Key.raw "governance")
        (Key.raw "proposal") (Key.raw "owner-record") 65536 [] =
      Except.error "byte array longer than desired length" := by
  exact insertTransactionTx_eq_overflow sampleProgram (Key.raw "governance")
    (Key.raw "proposal") (Key.raw "owner-record") 65536 [] (by omega)

/-- C7 (amended): the builders perform no local validation of caller-supplied
keys (any keys are accepted), and for every txIndex that fits in 2 bytes they
do not fail locally; a txIndex whose 2-byte little-endian encoding does not
exist (65536 or more) makes the byte-encoding primitive throw locally, so only
that rejection is not left to the external program. -/
theorem no_local_validation_of_inputs
    (p : Program) (realm : Realm)
    (realmKey governanceKey proposalAddress proposalOwnerRecordKey proposalSeed : Key)
    (proposalName : String) (councilVote : Option Bool)
    (ixs : List TransactionInstruction) :
    (∀ txIndex : Nat,
      (txIndex < 65536 ∧
        ∃ t, insertTransactionTx p governanceKey proposalAddress
          proposalOwnerRecordKey txIndex ixs = Except.ok t) ∨
      (65536 ≤ txIndex ∧
        insertTransactionTx p governanceKey proposalAddress
          proposalOwnerRecordKey txIndex ixs =
          Except.error "byte array longer than desired length")) ∧
    (∃ res, createProposalTx p realmKey governanceKey proposalName councilVote
        (some realm) proposalSeed = Except.ok res) := by
  refine ⟨?_, ⟨_, rfl⟩⟩
  intro txIndex
  by_cases h : txIndex < 65536
  · exact Or.inl ⟨h, _, insertTransactionTx_eq p governanceKey proposalAddress
      proposalOwnerRecordKey txIndex ixs h⟩
  · exact Or.inr ⟨by omega, insertTransactionTx_eq_overflow p governanceKey
      proposalAddress proposalOwnerRecordKey txIndex ixs (by omega)⟩

/-- C10: every address derivation in the three builders uses the fixed
constant `GOVERNANCE_PROGRAM_ID` as the owning program, even when the program
handle was constructed by `createSplGovernanceProgram` with an overridden
program id; no derivation reads the handle's own program id, so the builders'
outputs are unchanged by the override. -/
theorem derivations_use_constant_program_id
    (wallet : AnchorWallet) (connection : Connection) (pid : Key)
    (realm : Realm)
    (realmKey governanceKey proposalAddress proposalOwnerRecordKey proposalSeed : Key)
    (proposalName : String) (councilVote : Option Bool)
    (ixs : List TransactionInstruction) :
    (createProposalTx (createSplGovernanceProgram wallet connection (some pid))
        realmKey governanceKey proposalName councilVote (some realm)
        proposalSeed =
      createProposalTx (createSplGovernanceProgram wallet connection none)
        realmKey governanceKey proposalName councilVote (some realm)
        proposalSeed) ∧
    (∀ txIndex : Nat,
      insertTransactionTx (createSplGovernanceProgram wallet connection (some pid))
        governanceKey proposalAddress proposalOwnerRecordKey txIndex ixs =
      insertTransactionTx (createSplGovernanceProgram wallet connection none)
        governanceKey proposalAddress proposalOwnerRecordKey txIndex ixs) ∧
    (createProposalWithInstructionsTransactions
        (createSplGovernanceProgram wallet connection (some pid)) realmKey
        governanceKey proposalName ixs councilVote (some realm) proposalSeed =
      createProposalWithInstructionsTransactions
        (createSplGovernanceProgram wallet connection none) realmKey
        governanceKey proposalName ixs councilVote (some realm) proposalSeed) ∧
    (∃ res, createProposalTx
        (createSplGovernanceProgram wallet connection (some pid)) realmKey
        governanceKey proposalName councilVote (some realm) proposalSeed =
        Except.ok res ∧
      res.proposalAddress.ownerProgram = some GOVERNANCE_PROGRAM_ID ∧
      res.proposalOwnerRecordKey.ownerProgram = some GOVERNANCE_PROGRAM_ID ∧
      (res.tx.createAccounts.map fun a => a.realmConfigAddress.ownerProgram) =
        some (some GOVERNANCE_PROGRAM_ID) ∧
      (res.tx.createAccounts.map fun a => a.proposalDepositAddress.ownerProgram) =
        some (some GOVERNANCE_PROGRAM_ID)) ∧
    (∀ txIndex : Nat,
      (65536 ≤ txIndex ∧
        insertTransactionTx
          (createSplGovernanceProgram wallet connection (some pid))
          governanceKey proposalAddress proposalOwnerRecordKey txIndex ixs =
          Except.error "byte array longer than desired length") ∨
      ∃ t, insertTransactionTx
          (createSplGovernanceProgram wallet connection (some pid))
          governanceKey proposalAddress proposalOwnerRecordKey txIndex ixs =
          Except.ok t ∧
        (t.insertAccounts.map fun a => a.proposalTransactionAddress.ownerProgram) =
          some (some GOVERNANCE_PROGRAM_ID)) := by
  refine ⟨rfl, fun txIndex => rfl, rfl, ⟨_, rfl, rfl, rfl, rfl, rfl⟩, ?_⟩
  intro txIndex
  by_cases h : txIndex < 65536
  · exact Or.inr ⟨_, insertTransactionTx_eq _ governanceKey proposalAddress
      proposalOwnerRecordKey txIndex ixs h, rfl⟩
  · exact Or.inl ⟨by omega, insertTransactionTx_eq_overflow _ governanceKey
      proposalAddress proposalOwnerRecordKey txIndex ixs (by omega)⟩

end SplGov
